import Mathlib

/-!
Verification of the error-bridging module (`src/err.rs`) of rust-cpython.

The module wraps the Python interpreter's global exception slot (three raw
pointers: type, value, traceback) in a host-side `PyErr` value and provides
constructors, normalization, and result adapters.  We embed it shallowly:

* a raw Python object is an abstract identifier (`Obj := Nat`); a nullable
  raw pointer is `Option Obj`;
* the interpreter's global exception slot is an explicit `InterpState`
  record threaded through the stateful operations;
* the behavior of the foreign (CPython) routines the module calls —
  `PyExceptionInstance_Check`, `PyExceptionClass_Check`,
  `PyErr_NormalizeException`, `PyErr_WarnEx`, type lookups — is an abstract
  `Runtime` structure; properties of those routines needed by a claim are
  stated as explicit hypotheses;
* a Rust panic (a failed `assert!` or `unwrap`) is modelled by `Option`:
  `none` is the panic.
-/

namespace RustCPython

/-- Model of a raw Python object reference: objects are abstract
identifiers; a nullable raw pointer is `Option Obj`. -/
abbrev Obj := Nat

/-- Model of the Python interpreter's global exception slot: the three raw
pointer fields read by `PyErr_Fetch` and written by `PyErr_Restore`.
All three `none` means no error is pending. -/
structure InterpState where
  excType : Option Obj
  excValue : Option Obj
  excTraceback : Option Obj
deriving Repr, DecidableEq

/-- Model of the foreign CPython routines and singletons that `err.rs`
calls through `ffi` and `py`: classification predicates, class-of and
type-of accessors, well-known type objects, string conversion,
`PyErr_NormalizeException`, and `PyErr_WarnEx`. -/
structure Runtime where
  /-- Model of `ffi::PyExceptionInstance_Check(o) != 0`. -/
  excInstanceCheck : Obj → Bool
  /-- Model of `ffi::PyExceptionClass_Check(o) != 0`. -/
  excClassCheck : Obj → Bool
  /-- Model of `ffi::PyExceptionInstance_Class(o)`. -/
  excInstanceClass : Obj → Obj
  /-- Model of a successful `cast_into::<PyType>()` / `cast_as::<PyType>()`. -/
  isTypeObj : Obj → Bool
  /-- Model of a successful `cast_as::<PyClass>()` (old-style class, python27). -/
  isOldStyleClass : Obj → Bool
  /-- Model of `py.get_type::<PyClass>()` (python27). -/
  oldStyleClassType : Obj
  /-- Model of `py.get_type::<exc::TypeError>()`. -/
  typeError : Obj
  /-- Model of `py.get_type::<exc::SystemError>()`. -/
  systemError : Obj
  /-- Model of `py.None()`. -/
  noneObj : Obj
  /-- Model of `obj.get_type()`. -/
  typeOf : Obj → Obj
  /-- Model of `"...".to_py_object(py).into_object()`. -/
  strObj : String → Obj
  /-- Model of the runtime's `isinstance(v, t)` judgment (instance of `t`
  or of a subclass of `t`). -/
  isInstanceOf : Obj → Obj → Bool
  /-- Model of `ffi::PyErr_NormalizeException` on the three raw pointers of
  a `PyErr` (the type pointer is non-null going in; the routine may rewrite
  all three). -/
  normalizeExc : Obj → Option Obj → Option Obj → Option Obj × Option Obj × Option Obj
  /-- Model of `ffi::PyErr_WarnEx(category, message, stacklevel)`: returns
  the C `int` result and may update the interpreter state. -/
  warnEx : InterpState → Obj → List Char → Int → Int × InterpState

/-- Embedding of `struct PyErr`: exception type, optional value, optional
traceback (`src/err.rs:31-43`). -/
structure PyErr where
  ptype : Obj
  pvalue : Option Obj
  ptraceback : Option Obj
deriving Repr, DecidableEq

namespace PyErr

/-- Embedding of `PyErr::occurred` (`src/err.rs:52-54`): true iff
`ffi::PyErr_Occurred()` — the slot's current exception type — is non-null. -/
def occurred (s : InterpState) : Bool :=
  s.excType.isSome

/-- Embedding of `PyErr::new_from_ffi_tuple` (`src/err.rs:69-81`): a null
type pointer is replaced by the `SystemError` type object; value and
traceback are taken as-is (possibly null). -/
def new_from_ffi_tuple (rt : Runtime) (ptype pvalue ptraceback : Option Obj) : PyErr :=
  { ptype := match ptype with
             | none => rt.systemError
             | some t => t
    pvalue := pvalue
    ptraceback := ptraceback }

/-- Embedding of `PyErr::fetch` (`src/err.rs:59-67`): `PyErr_Fetch` reads
and clears the three slot fields, then `new_from_ffi_tuple` wraps them. -/
def fetch (rt : Runtime) (s : InterpState) : PyErr × InterpState :=
  (new_from_ffi_tuple rt s.excType s.excValue s.excTraceback,
   ⟨none, none, none⟩)

/-- Embedding of `PyErr::new_helper` (`src/err.rs:97-104`): asserts that
`ty` is an exception class (`none` models the `assert!` panic), then builds
the error with `pvalue = Some value`, `ptraceback = None`. -/
def new_helper (rt : Runtime) (ty value : Obj) : Option PyErr :=
  if rt.excClassCheck ty then
    some { ptype := ty, pvalue := some value, ptraceback := none }
  else
    none

/-- Embedding of `PyErr::new` (`src/err.rs:91-95`): `ty` models the looked
up singleton `py.get_type::<T>()` and `value` models
`value.to_py_object(py).into_object()`. -/
def new (rt : Runtime) (ty value : Obj) : Option PyErr :=
  new_helper rt ty value

/-- Embedding of `PyErr::from_instance_helper` (`src/err.rs:115-136`):
three-way classification by `PyExceptionInstance_Check` then
`PyExceptionClass_Check`, with a `TypeError` fallback. -/
def from_instance_helper (rt : Runtime) (obj : Obj) : PyErr :=
  if rt.excInstanceCheck obj then
    { ptype := rt.excInstanceClass obj, pvalue := some obj, ptraceback := none }
  else if rt.excClassCheck obj then
    { ptype := obj, pvalue := none, ptraceback := none }
  else
    { ptype := rt.typeError
      pvalue := some (rt.strObj "exceptions must derive from BaseException")
      ptraceback := none }

/-- Embedding of `PyErr::from_instance` (`src/err.rs:111-113`): converts
the argument into a plain object and delegates to the helper. -/
def from_instance (rt : Runtime) (obj : Obj) : PyErr :=
  from_instance_helper rt obj

/-- Embedding of `PyErr::new_lazy_init` (`src/err.rs:142-148`). -/
def new_lazy_init (exc : Obj) (value : Option Obj) : PyErr :=
  { ptype := exc, pvalue := value, ptraceback := none }

/-- Embedding of `PyErr::into_normalized` (`src/err.rs:182-192`): steals
the three pointers, calls `PyErr_NormalizeException`, and rewraps the
result through `new_from_ffi_tuple`. -/
def into_normalized (rt : Runtime) (e : PyErr) : PyErr :=
  let r := rt.normalizeExc e.ptype e.pvalue e.ptraceback
  new_from_ffi_tuple rt r.1 r.2.1 r.2.2

/-- Embedding of `PyErr::normalize` (`src/err.rs:171-178`): replaces the
error in place by its normalized form (the `ptr::read`/`ptr::write` pair is
a pure replacement here). -/
def normalize (rt : Runtime) (e : PyErr) : PyErr :=
  into_normalized rt e

/-- Embedding of `PyErr::get_type`, default configuration
(`src/err.rs:212-218`): the exception type if `ptype` casts to `PyType`,
otherwise the type of `None`. -/
def get_type (rt : Runtime) (e : PyErr) : Obj :=
  if rt.isTypeObj e.ptype then e.ptype else rt.typeOf rt.noneObj

/-- Embedding of `PyErr::get_type` under `feature="python27-sys"`
(`src/err.rs:198-208`): additionally maps an old-style class to the
`PyClass` type object before the `None`-type fallback. -/
def get_type_python27 (rt : Runtime) (e : PyErr) : Obj :=
  if rt.isTypeObj e.ptype then e.ptype
  else if rt.isOldStyleClass e.ptype then rt.oldStyleClassType
  else rt.typeOf rt.noneObj

/-- Embedding of `PyErr::instance` (`src/err.rs:223-229`): normalizes,
then returns the value if present, else `py.None()`; the updated (`&mut`)
error is returned alongside. -/
def instance' (rt : Runtime) (e : PyErr) : PyErr × Obj :=
  let e2 := normalize rt e
  (e2, match e2.pvalue with
       | some inst => inst
       | none => rt.noneObj)

/-- Embedding of `PyErr::restore` (`src/err.rs:234-239`): writes the three
owned pointers into the interpreter slot via `PyErr_Restore`, replacing its
previous contents. -/
def restore (e : PyErr) (_s : InterpState) : InterpState :=
  ⟨some e.ptype, e.pvalue, e.ptraceback⟩

end PyErr

/-- Embedding of `error_on_minusone` (`src/err.rs:306-312`). -/
def error_on_minusone (rt : Runtime) (s : InterpState) (result : Int) :
    Except PyErr Unit × InterpState :=
  if result ≠ -1 then
    (Except.ok (), s)
  else
    let f := PyErr.fetch rt s
    (Except.error f.1, f.2)

/-- Embedding of `CString::new`: fails (`none`) iff the byte string
contains a NUL byte. -/
def cstringNew (message : List Char) : Option (List Char) :=
  if Char.ofNat 0 ∈ message then none else some message

/-- Embedding of `PyErr::warn` (`src/err.rs:243-248`): `CString::new(message).unwrap()`
panics (`none`) on an interior NUL, otherwise the `PyErr_WarnEx` result is
mapped through `error_on_minusone`. -/
def PyErr.warn (rt : Runtime) (s : InterpState) (category : Obj)
    (message : List Char) (stacklevel : Int) :
    Option (Except PyErr Unit × InterpState) :=
  match cstringNew message with
  | none => none
  | some _ =>
      let r := rt.warnEx s category message stacklevel
      some (error_on_minusone rt r.2 r.1)

/-- Embedding of `impl From<PythonObjectDowncastError> for PyErr`
(`src/err.rs:252-256`): `new_lazy_init(TypeError, None)`. -/
def pyErrFromDowncastError (rt : Runtime) : PyErr :=
  PyErr.new_lazy_init rt.typeError none

/-- Embedding of `result_from_owned_ptr` (`src/err.rs:262-268`): a null
pointer yields `Err(fetch())`, a non-null pointer is wrapped as an owned
object. -/
def result_from_owned_ptr (rt : Runtime) (s : InterpState) (p : Option Obj) :
    Except PyErr Obj × InterpState :=
  match p with
  | none =>
      let f := PyErr.fetch rt s
      (Except.error f.1, f.2)
  | some o => (Except.ok o, s)

/-- Concrete runtime used to witness the theorems: object `0` is `None`,
`1` its type, `2` is `TypeError`, `3` is `SystemError`, `4` the old-style
class type object, `10` an exception instance of class `11`, `12` an
old-style class; normalization is the identity and `PyErr_WarnEx` succeeds
without touching the slot. -/
def rt0 : Runtime where
  excInstanceCheck o := decide (o = 10)
  excClassCheck o := decide (o = 2 ∨ o = 3 ∨ o = 11)
  excInstanceClass _ := 11
  isTypeObj o := decide (o = 1 ∨ o = 2 ∨ o = 3)
  isOldStyleClass o := decide (o = 12)
  oldStyleClassType := 4
  typeError := 2
  systemError := 3
  noneObj := 0
  typeOf o := if o = 0 then 1 else 2
  strObj s := 100 + s.length
  isInstanceOf _ _ := true
  normalizeExc t v tb := (some t, v, tb)
  warnEx s _ _ _ := (0, s)

/-- Modelled from the spec: the behavior of the external CPython routine
`PyErr_NormalizeException` (spec §4.2), which is not part of this
repository.  Given a non-null type pointer it never nulls the type, its
output is a fixed point (running it again on its own output changes
nothing), and its output value, when present, is an instance of the output
type (or of a subclass). -/
structure NormalizerSpec (rt : Runtime) : Prop where
  typeSome : ∀ t v tb, (rt.normalizeExc t v tb).1.isSome
  fixed : ∀ t v tb t' , (rt.normalizeExc t v tb).1 = some t' →
    rt.normalizeExc t' (rt.normalizeExc t v tb).2.1 (rt.normalizeExc t v tb).2.2 =
      (some t', (rt.normalizeExc t v tb).2.1, (rt.normalizeExc t v tb).2.2)
  valueInst : ∀ t v tb t' v' , (rt.normalizeExc t v tb).1 = some t' →
    (rt.normalizeExc t v tb).2.1 = some v' → rt.isInstanceOf v' t' = true

/-- C1: when the global exception slot is empty, `fetch` returns the
`SystemError` fallback triple with absent payload and trace, never fails,
leaves the slot empty, and a second `fetch` with no intervening
error-setting returns the same fallback triple. -/
theorem fetch_empty_slot (rt : Runtime) (s : InterpState)
    (h : s = ⟨none, none, none⟩) :
    (PyErr.fetch rt s).1 = ⟨rt.systemError, none, none⟩ ∧
    PyErr.occurred (PyErr.fetch rt s).2 = false ∧
    (PyErr.fetch rt s).2 = ⟨none, none, none⟩ ∧
    (PyErr.fetch rt (PyErr.fetch rt s).2).1 = (PyErr.fetch rt s).1 := by
  subst h
  simp [PyErr.fetch, PyErr.new_from_ffi_tuple, PyErr.occurred]

/-- Witness for C1 at the concrete empty slot and the concrete runtime. -/
theorem fetch_empty_slot_w :
    (PyErr.fetch rt0 ⟨none, none, none⟩).1 = ⟨rt0.systemError, none, none⟩ ∧
    PyErr.occurred (PyErr.fetch rt0 ⟨none, none, none⟩).2 = false ∧
    (PyErr.fetch rt0 ⟨none, none, none⟩).2 = ⟨none, none, none⟩ ∧
    (PyErr.fetch rt0 (PyErr.fetch rt0 ⟨none, none, none⟩).2).1 =
      (PyErr.fetch rt0 ⟨none, none, none⟩).1 :=
  fetch_empty_slot rt0 ⟨none, none, none⟩ rfl

/-- C2: `from_instance` is a total three-way classification: an exception
instance gives (runtime class, payload the object); an exception class
gives (the object, no payload); anything else gives (`TypeError`, the
fixed diagnostic string); the traceback is absent in every case and there
is no fourth outcome. -/
theorem from_instance_classification (rt : Runtime) (obj : Obj) :
    (PyErr.from_instance rt obj).ptraceback = none ∧
    (rt.excInstanceCheck obj = true →
      PyErr.from_instance rt obj =
        ⟨rt.excInstanceClass obj, some obj, none⟩) ∧
    (rt.excInstanceCheck obj = false → rt.excClassCheck obj = true →
      PyErr.from_instance rt obj = ⟨obj, none, none⟩) ∧
    (rt.excInstanceCheck obj = false → rt.excClassCheck obj = false →
      PyErr.from_instance rt obj =
        ⟨rt.typeError,
         some (rt.strObj "exceptions must derive from BaseException"),
         none⟩) ∧
    (PyErr.from_instance rt obj =
        ⟨rt.excInstanceClass obj, some obj, none⟩ ∨
     PyErr.from_instance rt obj = ⟨obj, none, none⟩ ∨
     PyErr.from_instance rt obj =
        ⟨rt.typeError,
         some (rt.strObj "exceptions must derive from BaseException"),
         none⟩) := by
  unfold PyErr.from_instance PyErr.from_instance_helper
  rcases h1 : rt.excInstanceCheck obj <;> rcases h2 : rt.excClassCheck obj <;>
    simp [h1, h2]

/-- Witness for C2: the exception-instance case at the concrete runtime
(object `10` is an instance of class `11`). -/
theorem from_instance_classification_w :
    PyErr.from_instance rt0 10 = ⟨11, some 10, none⟩ :=
  (from_instance_classification rt0 10).2.1 (by decide)

/-- C3: with an error pending, restoring the fetched triple puts the slot
back in exactly its previous state, so `occurred` is true both before the
fetch and after the restore. -/
theorem restore_fetch_roundtrip (rt : Runtime) (s : InterpState)
    (h : PyErr.occurred s = true) :
    PyErr.restore (PyErr.fetch rt s).1 (PyErr.fetch rt s).2 = s ∧
    PyErr.occurred
      (PyErr.restore (PyErr.fetch rt s).1 (PyErr.fetch rt s).2) = true := by
  cases s with
  | mk et ev etb =>
    cases et with
    | none => simp [PyErr.occurred] at h
    | some t =>
        simp [PyErr.fetch, PyErr.new_from_ffi_tuple, PyErr.restore,
              PyErr.occurred]

/-- Witness for C3 at a concrete pending-error state. -/
theorem restore_fetch_roundtrip_w :
    PyErr.restore (PyErr.fetch rt0 ⟨some 2, some 10, none⟩).1
        (PyErr.fetch rt0 ⟨some 2, some 10, none⟩).2 = ⟨some 2, some 10, none⟩ ∧
    PyErr.occurred
      (PyErr.restore (PyErr.fetch rt0 ⟨some 2, some 10, none⟩).1
        (PyErr.fetch rt0 ⟨some 2, some 10, none⟩).2) = true :=
  restore_fetch_roundtrip rt0 ⟨some 2, some 10, none⟩ (by decide)

/-- C4: under the external normalizer's contract, `normalize` is
idempotent, `instance'` called twice returns the same underlying object,
and after normalization a present payload is an instance of the kind while
an absent payload makes `instance'` return the `None` object. -/
theorem normalize_idempotent (rt : Runtime) (e : PyErr)
    (hspec : NormalizerSpec rt) :
    PyErr.normalize rt (PyErr.normalize rt e) = PyErr.normalize rt e ∧
    (PyErr.instance' rt (PyErr.instance' rt e).1).2 =
      (PyErr.instance' rt e).2 ∧
    (∀ v, (PyErr.normalize rt e).pvalue = some v →
      rt.isInstanceOf v (PyErr.normalize rt e).ptype = true) ∧
    ((PyErr.normalize rt e).pvalue = none →
      (PyErr.instance' rt (PyErr.normalize rt e)).2 = rt.noneObj) := by
  obtain ⟨t', ht'⟩ := Option.isSome_iff_exists.mp
    (hspec.typeSome e.ptype e.pvalue e.ptraceback)
  have hnorm : PyErr.normalize rt e =
      ⟨t', (rt.normalizeExc e.ptype e.pvalue e.ptraceback).2.1,
           (rt.normalizeExc e.ptype e.pvalue e.ptraceback).2.2⟩ := by
    simp [PyErr.normalize, PyErr.into_normalized, PyErr.new_from_ffi_tuple, ht']
  have hfix := hspec.fixed e.ptype e.pvalue e.ptraceback t' ht'
  have hidem : PyErr.normalize rt (PyErr.normalize rt e) =
      PyErr.normalize rt e := by
    rw [hnorm]
    simp [PyErr.normalize, PyErr.into_normalized, hfix,
          PyErr.new_from_ffi_tuple]
  refine ⟨hidem, ?_, ?_, ?_⟩
  · simp [PyErr.instance', hidem]
  · intro v hv
    rw [hnorm] at hv ⊢
    exact hspec.valueInst e.ptype e.pvalue e.ptraceback t' v ht' hv
  · intro hv
    simp [PyErr.instance', hidem, hv]

/-- Witness for C4 at the concrete runtime, whose normalizer is the
identity and hence satisfies the contract. -/
theorem normalize_idempotent_w :
    PyErr.normalize rt0 (PyErr.normalize rt0 ⟨2, none, none⟩) =
      PyErr.normalize rt0 ⟨2, none, none⟩ :=
  (normalize_idempotent rt0 ⟨2, none, none⟩
    ⟨fun _ _ _ => rfl, fun _ _ _ _ _ => rfl, fun _ _ _ _ _ _ _ => rfl⟩).1

/-- C5: `error_on_minusone` returns `Err` with the fetched triple exactly
when the code is `-1`, and `Ok(())` for every other code, leaving the slot
untouched regardless of any pending error. -/
theorem error_on_minusone_spec (rt : Runtime) (s : InterpState) (n : Int) :
    (n = -1 →
      error_on_minusone rt s n =
        (Except.error (PyErr.fetch rt s).1, (PyErr.fetch rt s).2)) ∧
    (n ≠ -1 → error_on_minusone rt s n = (Except.ok (), s)) := by
  constructor <;> intro h <;> simp [error_on_minusone, h]

/-- Witness for C5: a non-sentinel code succeeds even with an error
pending in the slot. -/
theorem error_on_minusone_spec_w :
    error_on_minusone rt0 ⟨some 2, none, none⟩ 5 =
      (Except.ok (), ⟨some 2, none, none⟩) :=
  (error_on_minusone_spec rt0 ⟨some 2, none, none⟩ 5).2 (by decide)

/-- C6: `result_from_owned_ptr` maps a null pointer to `Err` with the
fetched triple and a non-null pointer to `Ok` of the owned object, leaving
the slot untouched in the non-null case. -/
theorem result_from_owned_ptr_spec (rt : Runtime) (s : InterpState)
    (p : Option Obj) :
    (p = none →
      result_from_owned_ptr rt s p =
        (Except.error (PyErr.fetch rt s).1, (PyErr.fetch rt s).2)) ∧
    (∀ o, p = some o →
      result_from_owned_ptr rt s p = (Except.ok o, s)) := by
  constructor
  · intro h; subst h; rfl
  · intro o h; subst h; rfl

/-- Witness for C6: a non-null pointer at the concrete runtime. -/
theorem result_from_owned_ptr_spec_w :
    result_from_owned_ptr rt0 ⟨none, none, none⟩ (some 10) =
      (Except.ok 10, ⟨none, none, none⟩) :=
  (result_from_owned_ptr_spec rt0 ⟨none, none, none⟩ (some 10)).2 10 rfl

/-- C7: `PyErr::new` asserts that the looked-up type object is an
exception class (panic modelled as `none`) and otherwise always builds the
triple `(ty, Some value, None)`. -/
theorem pyerr_new_spec (rt : Runtime) (ty value : Obj) :
    (rt.excClassCheck ty = false → PyErr.new rt ty value = none) ∧
    (rt.excClassCheck ty = true →
      PyErr.new rt ty value = some ⟨ty, some value, none⟩) := by
  constructor <;> intro h <;> simp [PyErr.new, PyErr.new_helper, h]

/-- Witness for C7: object `2` (`TypeError`) is an exception class at the
concrete runtime. -/
theorem pyerr_new_spec_w :
    PyErr.new rt0 2 7 = some ⟨2, some 7, none⟩ :=
  (pyerr_new_spec rt0 2 7).2 (by decide)

/-- C8: a downcast-failure error converts into a triple whose kind is the
`TypeError` class with payload and traceback absent. -/
theorem downcast_error_to_pyerr (rt : Runtime) :
    pyErrFromDowncastError rt = ⟨rt.typeError, none, none⟩ :=
  rfl

/-- C9: `warn` panics (modelled as `none`) exactly when the message
contains a NUL byte, and otherwise maps the `PyErr_WarnEx` integer result
through the `-1` sentinel convention of `error_on_minusone`. -/
theorem warn_spec (rt : Runtime) (s : InterpState) (category : Obj)
    (message : List Char) (stacklevel : Int) :
    (Char.ofNat 0 ∈ message →
      PyErr.warn rt s category message stacklevel = none) ∧
    (Char.ofNat 0 ∉ message →
      PyErr.warn rt s category message stacklevel =
        some (error_on_minusone rt
          (rt.warnEx s category message stacklevel).2
          (rt.warnEx s category message stacklevel).1)) := by
  constructor <;> intro h <;> simp [PyErr.warn, cstringNew, h]

/-- Witness for C9: a message with an interior NUL byte panics. -/
theorem warn_spec_w :
    PyErr.warn rt0 ⟨none, none, none⟩ 2
      [Char.ofNat 97, Char.ofNat 0, Char.ofNat 98] 1 = none :=
  (warn_spec rt0 ⟨none, none, none⟩ 2
    [Char.ofNat 97, Char.ofNat 0, Char.ofNat 98] 1).1 (by decide)

/-- C10: `get_type` (both configurations) is total and pure: a type-object
kind is returned as-is; otherwise the default build returns the type of
`None`, and the python27 build does too unless the kind is an old-style
class, in which case it returns the `PyClass` type object. -/
theorem get_type_total (rt : Runtime) (e : PyErr) :
    (rt.isTypeObj e.ptype = true →
      PyErr.get_type rt e = e.ptype ∧
      PyErr.get_type_python27 rt e = e.ptype) ∧
    (rt.isTypeObj e.ptype = false →
      PyErr.get_type rt e = rt.typeOf rt.noneObj) ∧
    (rt.isTypeObj e.ptype = false → rt.isOldStyleClass e.ptype = false →
      PyErr.get_type_python27 rt e = rt.typeOf rt.noneObj) ∧
    (rt.isTypeObj e.ptype = false → rt.isOldStyleClass e.ptype = true →
      PyErr.get_type_python27 rt e = rt.oldStyleClassType) := by
  refine ⟨?_, ?_, ?_, ?_⟩
  · intro h
    simp [PyErr.get_type, PyErr.get_type_python27, h]
  · intro h
    simp [PyErr.get_type, h]
  · intro h h2
    simp [PyErr.get_type_python27, h, h2]
  · intro h h2
    simp [PyErr.get_type_python27, h, h2]

/-- Witness for C10: a non-type, non-old-style kind falls back to the type
of `None` in both configurations. -/
theorem get_type_total_w :
    PyErr.get_type rt0 ⟨10, none, none⟩ = rt0.typeOf rt0.noneObj ∧
    PyErr.get_type_python27 rt0 ⟨10, none, none⟩ = rt0.typeOf rt0.noneObj :=
  ⟨(get_type_total rt0 ⟨10, none, none⟩).2.1 (by decide),
   (get_type_total rt0 ⟨10, none, none⟩).2.2.1 (by decide) (by decide)⟩

end RustCPython
